import Mathlib

/-!
Verification of the ContentionBenchmark repository (src/main.cpp).

The four lock strategies (`BasicPriorityMutex`, `TwoMutexPriorityMutex`,
`MutexAndAtomicBoolPriorityMutex`, `MutexAndTwoBoolPriorityMutex`) are each
embedded as a finite interleaved transition system over one low-priority and
one high-priority worker, exactly one step per shared-memory access of the
source.  An `std::mutex` is an `Option Tid` owner field (lock blocks while the
owner is set, unlock clears it); `condition_variable::wait(lock, pred)`
becomes: with the mutex held, test the predicate; on failure release the mutex
and park; a parked thread may wake at any time (covering both `notify_all` and
the spurious wakeups the C++ standard permits) and then reacquires the mutex
and retests.  Both `unique_lock` members of the two cv-based strategies wrap
the same `dataMutex_`, so a single owner field per strategy models them.

The sweep driver of `main` is embedded as pure functions: nanosecond totals
are exact integers (they are `int64_t` accumulators converted to `double`,
well below 2^53), and `std::numeric_limits<double>::max()` is the exact
integer `2^1024 - 2^971`.
-/

inductive Tid
  | low
  | high
deriving DecidableEq, Fintype

/-- Primitive mutex operations occurring in the strategies' method bodies
(`dataMutex_` and, for `TwoMutexPriorityMutex`, `nextToAccessMutex_`). -/
inductive MOp
  | lockData
  | unlockData
  | lockGate
  | unlockGate
deriving DecidableEq

def MOp.isData : MOp → Bool
  | .lockData => true
  | .unlockData => true
  | _ => false

namespace BasicPriorityMutex

/-- Method bodies of `BasicPriorityMutex` (src/main.cpp lines 24-41) as
sequences of primitive mutex operations: every method touches only the single
`mutex_`. -/
def lockLowPriority : List MOp := [.lockData]

def unlockLowPriority : List MOp := [.unlockData]

def lockHighPriority : List MOp := [.lockData]

def unlockHighPriority : List MOp := [.unlockData]

/-- Control points of one worker's loop around `BasicPriorityMutex`: about to
call lock; holding the resource (between the return of the lock call and the
matching unlock call); about to call unlock. -/
inductive Pc
  | lockCall
  | work
  | unlockCall
deriving DecidableEq, Fintype

structure State where
  pcLow : Pc
  pcHigh : Pc
  owner : Option Tid
deriving DecidableEq, Fintype

/-- One atomic step of the low-priority worker: `lockLowPriority` is
`mutex_.lock()` (blocks while the mutex is owned), then the critical region,
then `unlockLowPriority` is `mutex_.unlock()`. -/
def lowStep (s : State) : List State :=
  match s.pcLow with
  | .lockCall => if s.owner = none then [{ s with pcLow := .work, owner := some .low }] else []
  | .work => [{ s with pcLow := .unlockCall }]
  | .unlockCall => [{ s with pcLow := .lockCall, owner := none }]

/-- One atomic step of the high-priority worker; `lockHighPriority` and
`unlockHighPriority` have the same bodies as the low-priority pair. -/
def highStep (s : State) : List State :=
  match s.pcHigh with
  | .lockCall => if s.owner = none then [{ s with pcHigh := .work, owner := some .high }] else []
  | .work => [{ s with pcHigh := .unlockCall }]
  | .unlockCall => [{ s with pcHigh := .lockCall, owner := none }]

def next (s : State) : List State := lowStep s ++ highStep s

def init : State := ⟨.lockCall, .lockCall, none⟩

abbrev Step (s s' : State) : Prop := s' ∈ next s

def Reachable (s : State) : Prop := Relation.ReflTransGen Step init s

abbrev holdsLow (s : State) : Prop := s.pcLow = .work

abbrev holdsHigh (s : State) : Prop := s.pcHigh = .work

/-- Inductive invariant: a worker past its lock call owns the mutex. -/
abbrev inv (s : State) : Prop :=
  (s.pcLow ≠ .lockCall → s.owner = some Tid.low) ∧
  (s.pcHigh ≠ .lockCall → s.owner = some Tid.high)

end BasicPriorityMutex

namespace TwoMutexPriorityMutex

/-- Body of `lockLowPriority` (src/main.cpp 45-49): `nextToAccessMutex_.lock();
dataMutex_.lock(); nextToAccessMutex_.unlock();`. -/
def lockLowPriority : List MOp := [.lockGate, .lockData, .unlockGate]

/-- Body of `unlockLowPriority` (50-52): `dataMutex_.unlock();`. -/
def unlockLowPriority : List MOp := [.unlockData]

/-- Body of `lockHighPriority` (54-58), transcribed from its own source text. -/
def lockHighPriority : List MOp := [.lockGate, .lockData, .unlockGate]

/-- Body of `unlockHighPriority` (59-61). -/
def unlockHighPriority : List MOp := [.unlockData]

/-- Control points of one worker's loop around `TwoMutexPriorityMutex`. -/
inductive Pc
  | gateLock
  | dataLock
  | gateUnlock
  | work
  | dataUnlock
deriving DecidableEq, Fintype

structure State where
  pcLow : Pc
  pcHigh : Pc
  gate : Option Tid
  data : Option Tid
deriving DecidableEq, Fintype

def lowStep (s : State) : List State :=
  match s.pcLow with
  | .gateLock => if s.gate = none then [{ s with pcLow := .dataLock, gate := some .low }] else []
  | .dataLock => if s.data = none then [{ s with pcLow := .gateUnlock, data := some .low }] else []
  | .gateUnlock => [{ s with pcLow := .work, gate := none }]
  | .work => [{ s with pcLow := .dataUnlock }]
  | .dataUnlock => [{ s with pcLow := .gateLock, data := none }]

def highStep (s : State) : List State :=
  match s.pcHigh with
  | .gateLock => if s.gate = none then [{ s with pcHigh := .dataLock, gate := some .high }] else []
  | .dataLock => if s.data = none then [{ s with pcHigh := .gateUnlock, data := some .high }] else []
  | .gateUnlock => [{ s with pcHigh := .work, gate := none }]
  | .work => [{ s with pcHigh := .dataUnlock }]
  | .dataUnlock => [{ s with pcHigh := .gateLock, data := none }]

def next (s : State) : List State := lowStep s ++ highStep s

def init : State := ⟨.gateLock, .gateLock, none, none⟩

abbrev Step (s s' : State) : Prop := s' ∈ next s

def Reachable (s : State) : Prop := Relation.ReflTransGen Step init s

abbrev holdsLow (s : State) : Prop := s.pcLow = .work

abbrev holdsHigh (s : State) : Prop := s.pcHigh = .work

/-- Inductive invariant: each mutex's owner field is set exactly while the
corresponding worker is between that mutex's lock and unlock operations. -/
abbrev inv (s : State) : Prop :=
  (s.gate = some Tid.low ↔ s.pcLow ∈ [Pc.dataLock, .gateUnlock]) ∧
  (s.gate = some Tid.high ↔ s.pcHigh ∈ [Pc.dataLock, .gateUnlock]) ∧
  (s.data = some Tid.low ↔ s.pcLow ∈ [Pc.gateUnlock, .work, .dataUnlock]) ∧
  (s.data = some Tid.high ↔ s.pcHigh ∈ [Pc.gateUnlock, .work, .dataUnlock])

/-- Forgetting the gate: a `TwoMutexPriorityMutex` control point seen only
through the data mutex. -/
def projPc : Pc → BasicPriorityMutex.Pc
  | .gateLock => .lockCall
  | .dataLock => .lockCall
  | .gateUnlock => .work
  | .work => .work
  | .dataUnlock => .unlockCall

/-- Forgetting the gate mutex maps a `TwoMutexPriorityMutex` state to a
`BasicPriorityMutex` state whose single mutex is the data mutex. -/
def proj (s : State) : BasicPriorityMutex.State :=
  ⟨projPc s.pcLow, projPc s.pcHigh, s.data⟩

end TwoMutexPriorityMutex

namespace MutexAndAtomicBoolPriorityMutex

/-- Control points of the low-priority worker's loop (src/main.cpp 70-79).
`lockLowPriority` is `lowPriorityLock_.lock()` (the shared `dataMutex_`)
followed by `cv_.wait(lowPriorityLock_, !waiting_)`: test the predicate with
the mutex held (`waitCheck`); on failure release the mutex and park
(`blockedCv`); wake (notify or spurious), reacquire, retest.  On success the
call returns still holding `dataMutex_`.  `unlockLowPriority` releases the
mutex then calls `cv_.notify_all()`. -/
inductive LPc
  | muLock
  | waitCheck
  | blockedCv
  | work
  | muUnlock
  | notifyAll
deriving DecidableEq, Fintype

/-- Control points of the high-priority worker's loop (81-89 plus the harness
loop 192-208): sleep, then `waiting_ = true`, then `highPriorityLock_.lock()`
(the same `dataMutex_`), then `waiting_ = false`, after which the lock call
returns; `unlockHighPriority` releases the mutex then notifies. -/
inductive HPc
  | sleep
  | setFlag
  | muLock
  | clearFlag
  | work
  | muUnlock
  | notifyAll
deriving DecidableEq, Fintype

structure State where
  pcLow : LPc
  pcHigh : HPc
  owner : Option Tid
  waiting : Bool
deriving DecidableEq, Fintype

def lowStep (s : State) : List State :=
  match s.pcLow with
  | .muLock => if s.owner = none then [{ s with pcLow := .waitCheck, owner := some .low }] else []
  | .waitCheck =>
      if s.waiting then [{ s with pcLow := .blockedCv, owner := none }]
      else [{ s with pcLow := .work }]
  | .blockedCv => if s.owner = none then [{ s with pcLow := .waitCheck, owner := some .low }] else []
  | .work => [{ s with pcLow := .muUnlock }]
  | .muUnlock => [{ s with pcLow := .notifyAll, owner := none }]
  | .notifyAll => [{ s with pcLow := .muLock }]

def highStep (s : State) : List State :=
  match s.pcHigh with
  | .sleep => [{ s with pcHigh := .setFlag }]
  | .setFlag => [{ s with pcHigh := .muLock, waiting := true }]
  | .muLock => if s.owner = none then [{ s with pcHigh := .clearFlag, owner := some .high }] else []
  | .clearFlag => [{ s with pcHigh := .work, waiting := false }]
  | .work => [{ s with pcHigh := .muUnlock }]
  | .muUnlock => [{ s with pcHigh := .notifyAll, owner := none }]
  | .notifyAll => [{ s with pcHigh := .sleep }]

def next (s : State) : List State := lowStep s ++ highStep s

def init : State := ⟨.muLock, .sleep, none, false⟩

abbrev Step (s s' : State) : Prop := s' ∈ next s

def Reachable (s : State) : Prop := Relation.ReflTransGen Step init s

abbrev holdsLow (s : State) : Prop := s.pcLow = .work

abbrev holdsHigh (s : State) : Prop := s.pcHigh = .work

/-- Inductive invariant: `dataMutex_` ownership tracks each worker's position,
and `waiting_` is true exactly between `waiting_ = true` and
`waiting_ = false` in `lockHighPriority` (only the high worker writes it). -/
abbrev inv (s : State) : Prop :=
  (s.owner = some Tid.low ↔ s.pcLow ∈ [LPc.waitCheck, .work, .muUnlock]) ∧
  (s.owner = some Tid.high ↔ s.pcHigh ∈ [HPc.clearFlag, .work, .muUnlock]) ∧
  (s.waiting = true ↔ s.pcHigh ∈ [HPc.muLock, .clearFlag])

end MutexAndAtomicBoolPriorityMutex

namespace MutexAndTwoBoolPriorityMutex

/-- Control points of the low-priority worker's loop (src/main.cpp 101-114).
`lockLowPriority`: lock `dataMutex_`; `cv_.wait` on the predicate
`!(dataHeld_ || highPriorityWaiting_)` (test with the mutex held; on failure
release and park; wake, reacquire, retest); on success `dataHeld_ = true`;
unlock the mutex; return.  `unlockLowPriority`: lock the mutex;
`dataHeld_ = false`; unlock; `cv_.notify_all()`. -/
inductive LPc
  | muLock
  | waitCheck
  | blockedCv
  | setHeld
  | muUnlock
  | work
  | muLock2
  | clearHeld
  | muUnlock2
  | notifyAll
deriving DecidableEq, Fintype

/-- Control points of the high-priority worker's loop (116-131 plus the
harness loop): sleep; `lockHighPriority`: lock `dataMutex_` (via
`highPriorityLock_`); `highPriorityWaiting_ = true`; `cv_.wait` on
`!dataHeld_` (the wait is written on `lowPriorityLock_`, but both
`unique_lock`s wrap the same `dataMutex_`, which the caller holds, so the wait
releases and reacquires that mutex); on success `dataHeld_ = true`; unlock;
return.  `unlockHighPriority`: lock; `dataHeld_ = false`;
`highPriorityWaiting_ = false`; unlock; notify. -/
inductive HPc
  | sleep
  | muLock
  | setWaiting
  | waitCheck
  | blockedCv
  | setHeld
  | muUnlock
  | work
  | muLock2
  | clearHeld
  | clearWaiting
  | muUnlock2
  | notifyAll
deriving DecidableEq, Fintype

structure State where
  pcLow : LPc
  pcHigh : HPc
  owner : Option Tid
  held : Bool
  waiting : Bool
  lowParked : Bool
  highParked : Bool
deriving DecidableEq

instance : Fintype State :=
  Fintype.ofEquiv (LPc × HPc × Option Tid × Bool × Bool × Bool × Bool)
    { toFun := fun x => ⟨x.1, x.2.1, x.2.2.1, x.2.2.2.1, x.2.2.2.2.1, x.2.2.2.2.2.1,
        x.2.2.2.2.2.2⟩
      invFun := fun s => ⟨s.pcLow, s.pcHigh, s.owner, s.held, s.waiting, s.lowParked,
        s.highParked⟩
      left_inv := fun _ => rfl
      right_inv := fun _ => rfl }

def lowStep (s : State) : List State :=
  match s.pcLow with
  | .muLock => if s.owner = none then [{ s with pcLow := .waitCheck, owner := some .low }] else []
  | .waitCheck =>
      if s.held || s.waiting then [{ s with pcLow := .blockedCv, owner := none, lowParked := true }]
      else [{ s with pcLow := .setHeld }]
  | .blockedCv =>
      (if s.lowParked = true then [{ s with lowParked := false }] else []) ++
      (if s.lowParked = false ∧ s.owner = none then
        [{ s with pcLow := .waitCheck, owner := some .low }] else [])
  | .setHeld => [{ s with pcLow := .muUnlock, held := true }]
  | .muUnlock => [{ s with pcLow := .work, owner := none }]
  | .work => [{ s with pcLow := .muLock2 }]
  | .muLock2 => if s.owner = none then [{ s with pcLow := .clearHeld, owner := some .low }] else []
  | .clearHeld => [{ s with pcLow := .muUnlock2, held := false }]
  | .muUnlock2 => [{ s with pcLow := .notifyAll, owner := none }]
  | .notifyAll => [{ s with pcLow := .muLock, lowParked := false, highParked := false }]

def highStep (s : State) : List State :=
  match s.pcHigh with
  | .sleep => [{ s with pcHigh := .muLock }]
  | .muLock => if s.owner = none then [{ s with pcHigh := .setWaiting, owner := some .high }] else []
  | .setWaiting => [{ s with pcHigh := .waitCheck, waiting := true }]
  | .waitCheck =>
      if s.held then [{ s with pcHigh := .blockedCv, owner := none, highParked := true }]
      else [{ s with pcHigh := .setHeld }]
  | .blockedCv =>
      (if s.highParked = true then [{ s with highParked := false }] else []) ++
      (if s.highParked = false ∧ s.owner = none then
        [{ s with pcHigh := .waitCheck, owner := some .high }] else [])
  | .setHeld => [{ s with pcHigh := .muUnlock, held := true }]
  | .muUnlock => [{ s with pcHigh := .work, owner := none }]
  | .work => [{ s with pcHigh := .muLock2 }]
  | .muLock2 => if s.owner = none then [{ s with pcHigh := .clearHeld, owner := some .high }] else []
  | .clearHeld => [{ s with pcHigh := .clearWaiting, held := false }]
  | .clearWaiting => [{ s with pcHigh := .muUnlock2, waiting := false }]
  | .muUnlock2 => [{ s with pcHigh := .notifyAll, owner := none }]
  | .notifyAll => [{ s with pcHigh := .sleep, lowParked := false, highParked := false }]

def next (s : State) : List State := lowStep s ++ highStep s

def init : State := ⟨.muLock, .sleep, none, false, false, false, false⟩

abbrev Step (s s' : State) : Prop := s' ∈ next s

def Reachable (s : State) : Prop := Relation.ReflTransGen Step init s

abbrev holdsLow (s : State) : Prop := s.pcLow = .work

abbrev holdsHigh (s : State) : Prop := s.pcHigh = .work

/-- The span during which the low worker's `dataHeld_ = true` is in force:
from its `dataHeld_ = true` store until its `dataHeld_ = false` store. -/
abbrev holdRegionLow (s : State) : Prop :=
  s.pcLow ∈ [LPc.muUnlock, .work, .muLock2, .clearHeld]

/-- The span during which the high worker's `dataHeld_ = true` is in force. -/
abbrev holdRegionHigh (s : State) : Prop :=
  s.pcHigh ∈ [HPc.muUnlock, .work, .muLock2, .clearHeld]

/-- Inductive invariant: mutex ownership tracks position; `dataHeld_` is set
exactly while one worker (never both) is in its hold region; a worker about to
store `dataHeld_ = true` saw it false under the mutex; `highPriorityWaiting_`
is set exactly between its set and clear in the high worker. -/
abbrev inv (s : State) : Prop :=
  (s.owner = some Tid.low ↔
    s.pcLow ∈ [LPc.waitCheck, .setHeld, .muUnlock, .clearHeld, .muUnlock2]) ∧
  (s.owner = some Tid.high ↔
    s.pcHigh ∈ [HPc.setWaiting, .waitCheck, .setHeld, .muUnlock, .clearHeld, .clearWaiting,
      .muUnlock2]) ∧
  (s.held = true ↔ (holdRegionLow s ∨ holdRegionHigh s)) ∧
  ¬(holdRegionLow s ∧ holdRegionHigh s) ∧
  (s.pcLow = .setHeld → s.held = false) ∧
  (s.pcHigh = .setHeld → s.held = false) ∧
  (s.waiting = true ↔
    s.pcHigh ∈ [HPc.waitCheck, .blockedCv, .setHeld, .muUnlock, .work, .muLock2, .clearHeld,
      .clearWaiting])

end MutexAndTwoBoolPriorityMutex

/-- Configuration stored by the `ContentionTest` constructor (src/main.cpp
146-153): the strategy instance (here its allocation id) and the three
workload durations in microseconds. -/
structure ContentionTest where
  priorityMutexId : Nat
  lowPrioWorkTime : Int
  highPrioWorkTime : Int
  highPrioSleepTime : Int
deriving DecidableEq

/-- The `ContentionTest` constructor (src/main.cpp 146-153).  The source
constructor only copies its arguments into the members; it contains no
validity check of any kind and cannot fail.  It is wrapped in `Except` so that
the spec's rejection claim can be stated: the result is `.ok` for every input,
including non-positive durations. -/
def ContentionTest.construct (pm : Nat) (lowW highW highS : Int) :
    Except String ContentionTest :=
  .ok ⟨pm, lowW, highW, highS⟩

/-- The four strategy instances of `main` (src/main.cpp 212-217): allocated
with `new` exactly once, before the sweep loops, and identified here by their
allocation ids 0-3, paired with their display names. -/
def priorityMutexes : List (Nat × String) :=
  [(0, "BasicPriorityMutex"), (1, "TwoMutexPriorityMutex"),
   (2, "MutexAndAtomicBoolPriorityMutex"), (3, "MutexAndTwoBoolPriorityMutex")]

def strategyNames : List String := priorityMutexes.map Prod.snd

/-- The duration set of the sweep (src/main.cpp 218-226), in microseconds. -/
def microsecondsList : List Int :=
  [1, 10, 100, 1000, 10000, 100000, 1000000]

/-- All workload-shape combinations visited by the triple loop of `main`
(lines 230-232), in iteration order: (low work, high work, high sleep). -/
def sweepCombos : List (Int × Int × Int) :=
  microsecondsList.flatMap fun lowW =>
    microsecondsList.flatMap fun highW =>
      microsecondsList.map fun highS => (lowW, highW, highS)

/-- Every harness run performed by the sweep, in order: for each combination,
one `ContentionTest` per entry of `priorityMutexes` (line 239-241), handed the
pre-allocated instance with that id. -/
def sweepRuns : List ((Int × Int × Int) × Nat × String) :=
  sweepCombos.flatMap fun c => priorityMutexes.map fun pm => (c, pm)

/-- `std::numeric_limits<double>::max()` is the exact integer
`(2 - 2^-52) * 2^1023 = 2^1024 - 2^971`, written out as a literal (see
`doubleMax_eq`). -/
def doubleMax : Int :=
  179769313486231570814527423731704356798070567525844996598917476803157260780028538760589558632766878171540458953514382464234321326889464182768467546703537516986049910576551282076245490090389328944075868508455133942304583236903222948165808559332123348274797826204144723168738177180919299881250404026184124858368

/-- The running winner state of the inner strategy loop (src/main.cpp
233-237): `bestLowName`, `bestHighName`, `bestLow` (initially `0.0`) and
`bestHigh` (initially `numeric_limits<double>::max()`). -/
structure BestAcc where
  bestLowName : String
  bestHighName : String
  bestLow : Int
  bestHigh : Int
deriving DecidableEq

def initialBest : BestAcc := ⟨"", "", 0, doubleMax⟩

/-- One iteration of the inner strategy loop (src/main.cpp 243-250): a result
`(name, lowPriorityWorkTime, highPriorityLatencyTime)` replaces the low-axis
leader iff strictly greater, and the high-axis leader iff strictly smaller. -/
def winnerStep (acc : BestAcc) (r : String × Int × Int) : BestAcc :=
  let acc1 :=
    if r.2.1 > acc.bestLow then { acc with bestLow := r.2.1, bestLowName := r.1 } else acc
  if r.2.2 < acc1.bestHigh then { acc1 with bestHigh := r.2.2, bestHighName := r.1 } else acc1

/-- The winner names selected for one combination from the four results. -/
def selectWinners (results : List (String × Int × Int)) : String × String :=
  let final := results.foldl winnerStep initialBest
  (final.bestLowName, final.bestHighName)

/-- The result list of one combination: one `test.run()` outcome per strategy,
in the fixed `priorityMutexes` order.  Measured times are parameters (`res`),
exact-integer nanosecond totals. -/
def resultsOf (res : String → Int × Int) : List (String × Int × Int) :=
  priorityMutexes.map fun pm => (pm.2, (res pm.2).1, (res pm.2).2)

def runResults (res : (Int × Int × Int) → String → Int × Int) (c : Int × Int × Int) :
    List (String × Int × Int) :=
  resultsOf (res c)

/-- `winnerCount[name] += 1` (src/main.cpp 252-253); `std::map::operator[]`
default-constructs absent counts to 0. -/
def bump (f : String → Nat) (n : String) : String → Nat :=
  fun m => if m = n then f m + 1 else f m

/-- The two win-count maps accumulated over the whole sweep and reported after
it (src/main.cpp 228-264). -/
def sweepTally (res : (Int × Int × Int) → String → Int × Int) :
    (String → Nat) × (String → Nat) :=
  sweepCombos.foldl
    (fun counts c =>
      (bump counts.1 (selectWinners (runResults res c)).1,
       bump counts.2 (selectWinners (runResults res c)).2))
    (fun _ => 0, fun _ => 0)

/-- The low-axis part of `winnerStep` on its own. -/
def lowSel (acc : String × Int) (r : String × Int) : String × Int :=
  if r.2 > acc.2 then r else acc

/-- The high-axis part of `winnerStep` on its own. -/
def highSel (acc : String × Int) (r : String × Int) : String × Int :=
  if r.2 < acc.2 then r else acc

/-- Single-step effect facts of the Flagged strategy, read off the source
method bodies: `waiting_ = true` is the first statement of `lockHighPriority`
(line 82), `waiting_ = false` its last (line 84, before the call returns), and
`unlockHighPriority` (86-89) never writes `waiting_`. -/
abbrev MutexAndAtomicBoolPriorityMutex.stepProp
    (s s' : MutexAndAtomicBoolPriorityMutex.State) : Prop :=
  (s.pcHigh = .setFlag → s'.pcHigh ≠ s.pcHigh →
    (s'.waiting = true ∧ s'.pcHigh = .muLock)) ∧
  (s.pcHigh = .clearFlag → s'.pcHigh ≠ s.pcHigh →
    (s'.waiting = false ∧ s'.pcHigh = .work)) ∧
  (s.pcHigh = .muUnlock → s'.waiting = s.waiting) ∧
  (s.pcHigh = .notifyAll → s'.waiting = s.waiting)

/-- Single-step effect facts of the Preferenced strategy's high-priority
methods, read off the source bodies (src/main.cpp 116-131): where each boolean
is written, which predicate the wait tests, and that `notify_all` wakes both
possibly parked workers. -/
abbrev MutexAndTwoBoolPriorityMutex.stepPropHigh
    (s s' : MutexAndTwoBoolPriorityMutex.State) : Prop :=
  (s.pcHigh = .setWaiting → s'.pcHigh ≠ s.pcHigh →
    (s'.waiting = true ∧ s'.pcHigh = .waitCheck)) ∧
  (s.pcHigh = .waitCheck → s'.pcHigh = .setHeld → s.held = false) ∧
  (s.pcHigh = .waitCheck → s.held = true → s'.pcHigh ≠ s.pcHigh → s'.pcHigh = .blockedCv) ∧
  (s.pcHigh = .setHeld → s'.pcHigh ≠ s.pcHigh → s'.held = true) ∧
  (s.pcHigh = .clearHeld → s'.pcHigh ≠ s.pcHigh → s'.held = false) ∧
  (s.pcHigh = .clearWaiting → s'.pcHigh ≠ s.pcHigh → s'.waiting = false) ∧
  (s.pcHigh = .notifyAll → s'.pcHigh ≠ s.pcHigh →
    (s'.lowParked = false ∧ s'.highParked = false))

/-- Single-step effect facts of the Preferenced strategy's low-priority
methods (src/main.cpp 101-114). -/
abbrev MutexAndTwoBoolPriorityMutex.stepPropLow
    (s s' : MutexAndTwoBoolPriorityMutex.State) : Prop :=
  (s.pcLow = .waitCheck → s'.pcLow = .setHeld → (s.held = false ∧ s.waiting = false)) ∧
  (s.pcLow = .setHeld → s'.pcLow ≠ s.pcLow → s'.held = true) ∧
  (s.pcLow = .clearHeld → s'.pcLow ≠ s.pcLow →
    (s'.held = false ∧ s'.waiting = s.waiting)) ∧
  (s.pcLow = .notifyAll → s'.pcLow ≠ s.pcLow →
    (s'.lowParked = false ∧ s'.highParked = false))

/-- `dataHeld_` is written only at the `dataHeld_ = true` stores of the two
lock methods and the `dataHeld_ = false` stores of the two unlock methods. -/
abbrev MutexAndTwoBoolPriorityMutex.stepPropHeld
    (s s' : MutexAndTwoBoolPriorityMutex.State) : Prop :=
  (s.held = false → s'.held = true → (s.pcLow = .setHeld ∨ s.pcHigh = .setHeld)) ∧
  (s.held = true → s'.held = false → (s.pcLow = .clearHeld ∨ s.pcHigh = .clearHeld))

/-- All single-step effect facts of the Preferenced strategy together. -/
abbrev MutexAndTwoBoolPriorityMutex.stepProp
    (s s' : MutexAndTwoBoolPriorityMutex.State) : Prop :=
  MutexAndTwoBoolPriorityMutex.stepPropHigh s s' ∧
  MutexAndTwoBoolPriorityMutex.stepPropLow s s' ∧
  MutexAndTwoBoolPriorityMutex.stepPropHeld s s'

theorem BasicPriorityMutex.basic_inv_init : BasicPriorityMutex.inv BasicPriorityMutex.init := by
  decide

set_option maxRecDepth 100000 in
theorem BasicPriorityMutex.basic_inv_step_bool :
    ∀ s : BasicPriorityMutex.State, BasicPriorityMutex.inv s →
      ((BasicPriorityMutex.next s).all fun s' => decide (BasicPriorityMutex.inv s')) = true := by
  decide

theorem BasicPriorityMutex.basic_inv_step :
    ∀ s : BasicPriorityMutex.State, BasicPriorityMutex.inv s →
      ∀ s' ∈ BasicPriorityMutex.next s, BasicPriorityMutex.inv s' := by
  intro s hs s' hmem
  have h := BasicPriorityMutex.basic_inv_step_bool s hs
  rw [List.all_eq_true] at h
  exact of_decide_eq_true (h s' hmem)

theorem BasicPriorityMutex.basic_reachable_inv {s : BasicPriorityMutex.State}
    (h : BasicPriorityMutex.Reachable s) : BasicPriorityMutex.inv s := by
  induction h with
  | refl => exact BasicPriorityMutex.basic_inv_init
  | tail _ hstep ih => exact BasicPriorityMutex.basic_inv_step _ ih _ hstep

theorem TwoMutexPriorityMutex.twoMutex_inv_init : TwoMutexPriorityMutex.inv TwoMutexPriorityMutex.init := by
  decide

set_option maxRecDepth 100000 in
theorem TwoMutexPriorityMutex.twoMutex_inv_step_bool :
    ∀ s : TwoMutexPriorityMutex.State, TwoMutexPriorityMutex.inv s →
      ((TwoMutexPriorityMutex.next s).all fun s' =>
        decide (TwoMutexPriorityMutex.inv s')) = true := by
  decide

theorem TwoMutexPriorityMutex.twoMutex_inv_step :
    ∀ s : TwoMutexPriorityMutex.State, TwoMutexPriorityMutex.inv s →
      ∀ s' ∈ TwoMutexPriorityMutex.next s, TwoMutexPriorityMutex.inv s' := by
  intro s hs s' hmem
  have h := TwoMutexPriorityMutex.twoMutex_inv_step_bool s hs
  rw [List.all_eq_true] at h
  exact of_decide_eq_true (h s' hmem)

theorem TwoMutexPriorityMutex.twoMutex_reachable_inv {s : TwoMutexPriorityMutex.State}
    (h : TwoMutexPriorityMutex.Reachable s) : TwoMutexPriorityMutex.inv s := by
  induction h with
  | refl => exact TwoMutexPriorityMutex.twoMutex_inv_init
  | tail _ hstep ih => exact TwoMutexPriorityMutex.twoMutex_inv_step _ ih _ hstep

theorem MutexAndAtomicBoolPriorityMutex.flagged_inv_init :
    MutexAndAtomicBoolPriorityMutex.inv MutexAndAtomicBoolPriorityMutex.init := by
  decide

set_option maxRecDepth 100000 in
theorem MutexAndAtomicBoolPriorityMutex.flagged_inv_step_bool :
    ∀ s : MutexAndAtomicBoolPriorityMutex.State, MutexAndAtomicBoolPriorityMutex.inv s →
      ((MutexAndAtomicBoolPriorityMutex.next s).all fun s' =>
        decide (MutexAndAtomicBoolPriorityMutex.inv s')) = true := by
  decide

theorem MutexAndAtomicBoolPriorityMutex.flagged_inv_step :
    ∀ s : MutexAndAtomicBoolPriorityMutex.State, MutexAndAtomicBoolPriorityMutex.inv s →
      ∀ s' ∈ MutexAndAtomicBoolPriorityMutex.next s, MutexAndAtomicBoolPriorityMutex.inv s' := by
  intro s hs s' hmem
  have h := MutexAndAtomicBoolPriorityMutex.flagged_inv_step_bool s hs
  rw [List.all_eq_true] at h
  exact of_decide_eq_true (h s' hmem)

theorem MutexAndAtomicBoolPriorityMutex.flagged_reachable_inv {s : MutexAndAtomicBoolPriorityMutex.State}
    (h : MutexAndAtomicBoolPriorityMutex.Reachable s) : MutexAndAtomicBoolPriorityMutex.inv s := by
  induction h with
  | refl => exact MutexAndAtomicBoolPriorityMutex.flagged_inv_init
  | tail _ hstep ih => exact MutexAndAtomicBoolPriorityMutex.flagged_inv_step _ ih _ hstep

theorem MutexAndTwoBoolPriorityMutex.preferenced_inv_init :
    MutexAndTwoBoolPriorityMutex.inv MutexAndTwoBoolPriorityMutex.init := by
  decide

set_option maxRecDepth 10000 in
set_option maxHeartbeats 4000000 in
theorem MutexAndTwoBoolPriorityMutex.preferenced_inv_step_bool :
    ∀ (pl : MutexAndTwoBoolPriorityMutex.LPc) (ph : MutexAndTwoBoolPriorityMutex.HPc)
      (ow : Option Tid) (hd wt lp hp : Bool),
      MutexAndTwoBoolPriorityMutex.inv ⟨pl, ph, ow, hd, wt, lp, hp⟩ →
      ((MutexAndTwoBoolPriorityMutex.next ⟨pl, ph, ow, hd, wt, lp, hp⟩).all fun s' =>
        decide (MutexAndTwoBoolPriorityMutex.inv s')) = true := by
  decide

theorem MutexAndTwoBoolPriorityMutex.preferenced_inv_step :
    ∀ s : MutexAndTwoBoolPriorityMutex.State, MutexAndTwoBoolPriorityMutex.inv s →
      ∀ s' ∈ MutexAndTwoBoolPriorityMutex.next s, MutexAndTwoBoolPriorityMutex.inv s' := by
  intro s hs s' hmem
  obtain ⟨pl, ph, ow, hd, wt, lp, hp⟩ := s
  have h := MutexAndTwoBoolPriorityMutex.preferenced_inv_step_bool pl ph ow hd wt lp hp hs
  rw [List.all_eq_true] at h
  exact of_decide_eq_true (h s' hmem)

theorem MutexAndTwoBoolPriorityMutex.preferenced_reachable_inv {s : MutexAndTwoBoolPriorityMutex.State}
    (h : MutexAndTwoBoolPriorityMutex.Reachable s) : MutexAndTwoBoolPriorityMutex.inv s := by
  induction h with
  | refl => exact MutexAndTwoBoolPriorityMutex.preferenced_inv_init
  | tail _ hstep ih => exact MutexAndTwoBoolPriorityMutex.preferenced_inv_step _ ih _ hstep

set_option maxRecDepth 100000 in
theorem MutexAndAtomicBoolPriorityMutex.flagged_step_props_bool :
    ∀ s : MutexAndAtomicBoolPriorityMutex.State,
      ((MutexAndAtomicBoolPriorityMutex.next s).all fun s' =>
        decide (MutexAndAtomicBoolPriorityMutex.stepProp s s')) = true := by
  decide

theorem MutexAndAtomicBoolPriorityMutex.flagged_step_props :
    ∀ s s' : MutexAndAtomicBoolPriorityMutex.State, s' ∈ MutexAndAtomicBoolPriorityMutex.next s →
      MutexAndAtomicBoolPriorityMutex.stepProp s s' := by
  intro s s' hmem
  have h := MutexAndAtomicBoolPriorityMutex.flagged_step_props_bool s
  rw [List.all_eq_true] at h
  exact of_decide_eq_true (h s' hmem)

set_option maxRecDepth 10000 in
set_option maxHeartbeats 4000000 in
theorem MutexAndTwoBoolPriorityMutex.preferenced_step_props_bool :
    ∀ (pl : MutexAndTwoBoolPriorityMutex.LPc) (ph : MutexAndTwoBoolPriorityMutex.HPc)
      (ow : Option Tid) (hd wt lp hp : Bool),
      ((MutexAndTwoBoolPriorityMutex.next ⟨pl, ph, ow, hd, wt, lp, hp⟩).all fun s' =>
        decide (MutexAndTwoBoolPriorityMutex.stepPropHigh ⟨pl, ph, ow, hd, wt, lp, hp⟩ s') &&
        (decide (MutexAndTwoBoolPriorityMutex.stepPropLow ⟨pl, ph, ow, hd, wt, lp, hp⟩ s') &&
         decide (MutexAndTwoBoolPriorityMutex.stepPropHeld ⟨pl, ph, ow, hd, wt, lp, hp⟩ s'))) =
        true := by
  decide

theorem MutexAndTwoBoolPriorityMutex.preferenced_step_props :
    ∀ s s' : MutexAndTwoBoolPriorityMutex.State, s' ∈ MutexAndTwoBoolPriorityMutex.next s →
      MutexAndTwoBoolPriorityMutex.stepProp s s' := by
  intro s s' hmem
  obtain ⟨pl, ph, ow, hd, wt, lp, hp⟩ := s
  have h := MutexAndTwoBoolPriorityMutex.preferenced_step_props_bool pl ph ow hd wt lp hp
  rw [List.all_eq_true] at h
  have h2 := h s' hmem
  rw [Bool.and_eq_true, Bool.and_eq_true] at h2
  exact ⟨of_decide_eq_true h2.1, of_decide_eq_true h2.2.1, of_decide_eq_true h2.2.2⟩

set_option maxRecDepth 100000 in
theorem TwoMutexPriorityMutex.sim_bool :
    ∀ s : TwoMutexPriorityMutex.State,
      ((TwoMutexPriorityMutex.next s).all fun s' =>
        decide (TwoMutexPriorityMutex.proj s' = TwoMutexPriorityMutex.proj s ∨
          BasicPriorityMutex.Step (TwoMutexPriorityMutex.proj s)
            (TwoMutexPriorityMutex.proj s'))) = true := by
  decide

theorem TwoMutexPriorityMutex.sim :
    ∀ s s' : TwoMutexPriorityMutex.State, TwoMutexPriorityMutex.Step s s' →
      TwoMutexPriorityMutex.proj s' = TwoMutexPriorityMutex.proj s ∨
        BasicPriorityMutex.Step (TwoMutexPriorityMutex.proj s)
          (TwoMutexPriorityMutex.proj s') := by
  intro s s' hmem
  have h := TwoMutexPriorityMutex.sim_bool s
  rw [List.all_eq_true] at h
  exact of_decide_eq_true (h s' hmem)

theorem TwoMutexPriorityMutex.reachable_proj {s : TwoMutexPriorityMutex.State}
    (h : TwoMutexPriorityMutex.Reachable s) :
    BasicPriorityMutex.Reachable (TwoMutexPriorityMutex.proj s) := by
  induction h with
  | refl => exact Relation.ReflTransGen.refl
  | tail _ hstep ih =>
      rcases TwoMutexPriorityMutex.sim _ _ hstep with heq | hstep'
      · rw [heq]; exact ih
      · exact Relation.ReflTransGen.tail ih hstep'

/-- C1: for every one of the four strategies and all interleavings of one
low-priority and one high-priority worker, the spans during which the workers
hold the resource (from the return of a lock call to the matching unlock call,
the `work` control point) never overlap: no reachable state has both workers
holding. -/
theorem C1_mutual_exclusion :
    (∀ s, BasicPriorityMutex.Reachable s →
      ¬(BasicPriorityMutex.holdsLow s ∧ BasicPriorityMutex.holdsHigh s)) ∧
    (∀ s, TwoMutexPriorityMutex.Reachable s →
      ¬(TwoMutexPriorityMutex.holdsLow s ∧ TwoMutexPriorityMutex.holdsHigh s)) ∧
    (∀ s, MutexAndAtomicBoolPriorityMutex.Reachable s →
      ¬(MutexAndAtomicBoolPriorityMutex.holdsLow s ∧
        MutexAndAtomicBoolPriorityMutex.holdsHigh s)) ∧
    (∀ s, MutexAndTwoBoolPriorityMutex.Reachable s →
      ¬(MutexAndTwoBoolPriorityMutex.holdsLow s ∧
        MutexAndTwoBoolPriorityMutex.holdsHigh s)) := by
  refine ⟨?_, ?_, ?_, ?_⟩
  · rintro s hr ⟨hl, hh⟩
    have hinv := BasicPriorityMutex.basic_reachable_inv hr
    have h1 := hinv.1 (by rw [hl]; decide)
    have h2 := hinv.2 (by rw [hh]; decide)
    simp [h1] at h2
  · rintro s hr ⟨hl, hh⟩
    have hinv := TwoMutexPriorityMutex.twoMutex_reachable_inv hr
    have h1 := hinv.2.2.1.mpr (by rw [hl]; decide)
    have h2 := hinv.2.2.2.mpr (by rw [hh]; decide)
    simp [h1] at h2
  · rintro s hr ⟨hl, hh⟩
    have hinv := MutexAndAtomicBoolPriorityMutex.flagged_reachable_inv hr
    have h1 := hinv.1.mpr (by rw [hl]; decide)
    have h2 := hinv.2.1.mpr (by rw [hh]; decide)
    simp [h1] at h2
  · rintro s hr ⟨hl, hh⟩
    have hinv := MutexAndTwoBoolPriorityMutex.preferenced_reachable_inv hr
    exact hinv.2.2.2.1 ⟨by rw [MutexAndTwoBoolPriorityMutex.holdRegionLow, hl]; decide,
      by rw [MutexAndTwoBoolPriorityMutex.holdRegionHigh, hh]; decide⟩

/-- C1 witness: the mutual-exclusion statement applied at each strategy's
initial state, which is reachable by the empty step sequence. -/
theorem C1_mutual_exclusion_witness :
    ¬(BasicPriorityMutex.holdsLow BasicPriorityMutex.init ∧
      BasicPriorityMutex.holdsHigh BasicPriorityMutex.init) ∧
    ¬(TwoMutexPriorityMutex.holdsLow TwoMutexPriorityMutex.init ∧
      TwoMutexPriorityMutex.holdsHigh TwoMutexPriorityMutex.init) ∧
    ¬(MutexAndAtomicBoolPriorityMutex.holdsLow MutexAndAtomicBoolPriorityMutex.init ∧
      MutexAndAtomicBoolPriorityMutex.holdsHigh MutexAndAtomicBoolPriorityMutex.init) ∧
    ¬(MutexAndTwoBoolPriorityMutex.holdsLow MutexAndTwoBoolPriorityMutex.init ∧
      MutexAndTwoBoolPriorityMutex.holdsHigh MutexAndTwoBoolPriorityMutex.init) :=
  ⟨C1_mutual_exclusion.1 _ Relation.ReflTransGen.refl,
   C1_mutual_exclusion.2.1 _ Relation.ReflTransGen.refl,
   C1_mutual_exclusion.2.2.1 _ Relation.ReflTransGen.refl,
   C1_mutual_exclusion.2.2.2 _ Relation.ReflTransGen.refl⟩

/-- C4: for the Flagged and Preferenced strategies, a high-priority lock call
never returns while the low-priority worker is still inside the span from its
lock return to its unlock (for Flagged, up to the mutex release of
`unlockLowPriority`; for Preferenced, up to the `dataHeld_ = false` store of
`unlockLowPriority`): no reachable state has the low worker inside that span
with the high worker's lock already returned (`pcHigh = work`). -/
theorem C4_no_preemption :
    (∀ s, MutexAndAtomicBoolPriorityMutex.Reachable s →
      ¬(s.pcLow ∈ [MutexAndAtomicBoolPriorityMutex.LPc.work, .muUnlock] ∧
        s.pcHigh = MutexAndAtomicBoolPriorityMutex.HPc.work)) ∧
    (∀ s, MutexAndTwoBoolPriorityMutex.Reachable s →
      ¬(s.pcLow ∈ [MutexAndTwoBoolPriorityMutex.LPc.work, .muLock2, .clearHeld] ∧
        s.pcHigh = MutexAndTwoBoolPriorityMutex.HPc.work)) := by
  constructor
  · rintro s hr ⟨hl, hh⟩
    have hinv := MutexAndAtomicBoolPriorityMutex.flagged_reachable_inv hr
    simp only [List.mem_cons, List.not_mem_nil, or_false] at hl
    have h1 : s.owner = some Tid.low := by
      rcases hl with h | h <;> exact hinv.1.mpr (by rw [h]; decide)
    have h2 := hinv.2.1.mpr (by rw [hh]; decide)
    simp [h1] at h2
  · rintro s hr ⟨hl, hh⟩
    have hinv := MutexAndTwoBoolPriorityMutex.preferenced_reachable_inv hr
    apply hinv.2.2.2.1
    simp only [List.mem_cons, List.not_mem_nil, or_false] at hl
    constructor
    · rcases hl with h | h | h <;> rw [MutexAndTwoBoolPriorityMutex.holdRegionLow, h] <;> decide
    · rw [MutexAndTwoBoolPriorityMutex.holdRegionHigh, hh]; decide

/-- C4 witness: the no-preemption statement applied at the two strategies'
initial states, reachable by the empty step sequence. -/
theorem C4_no_preemption_witness :
    ¬(MutexAndAtomicBoolPriorityMutex.init.pcLow ∈
        [MutexAndAtomicBoolPriorityMutex.LPc.work, .muUnlock] ∧
      MutexAndAtomicBoolPriorityMutex.init.pcHigh = MutexAndAtomicBoolPriorityMutex.HPc.work) ∧
    ¬(MutexAndTwoBoolPriorityMutex.init.pcLow ∈
        [MutexAndTwoBoolPriorityMutex.LPc.work, .muLock2, .clearHeld] ∧
      MutexAndTwoBoolPriorityMutex.init.pcHigh = MutexAndTwoBoolPriorityMutex.HPc.work) :=
  ⟨C4_no_preemption.1 _ Relation.ReflTransGen.refl,
   C4_no_preemption.2 _ Relation.ReflTransGen.refl⟩

/-- C2 counterexample: the state in which the high-priority worker's lock call
has returned (it is in its critical region, before `unlockHighPriority`) with
`waiting_ = false` is reachable: `lockHighPriority` itself clears the flag
(line 84), so the flag is not true for the whole high-priority critical region
and `unlockHighPriority` is not the operation that makes it false. -/
theorem C2_flag_false_in_high_critical_region :
    MutexAndAtomicBoolPriorityMutex.Reachable ⟨.muLock, .work, some Tid.high, false⟩ ∧
    MutexAndAtomicBoolPriorityMutex.holdsHigh
      (⟨.muLock, .work, some Tid.high, false⟩ : MutexAndAtomicBoolPriorityMutex.State) ∧
    (⟨.muLock, .work, some Tid.high, false⟩ :
      MutexAndAtomicBoolPriorityMutex.State).waiting = false := by
  refine ⟨?_, rfl, rfl⟩
  have h1 : MutexAndAtomicBoolPriorityMutex.Step MutexAndAtomicBoolPriorityMutex.init
      ⟨.muLock, .setFlag, none, false⟩ := by decide
  have h2 : MutexAndAtomicBoolPriorityMutex.Step ⟨.muLock, .setFlag, none, false⟩
      ⟨.muLock, .muLock, none, true⟩ := by decide
  have h3 : MutexAndAtomicBoolPriorityMutex.Step ⟨.muLock, .muLock, none, true⟩
      ⟨.muLock, .clearFlag, some Tid.high, true⟩ := by decide
  have h4 : MutexAndAtomicBoolPriorityMutex.Step ⟨.muLock, .clearFlag, some Tid.high, true⟩
      ⟨.muLock, .work, some Tid.high, false⟩ := by decide
  exact Relation.ReflTransGen.tail (Relation.ReflTransGen.tail (Relation.ReflTransGen.tail
    (Relation.ReflTransGen.tail Relation.ReflTransGen.refl h1) h2) h3) h4

/-- C2 amended: in `lockHighPriority` the flag is set true before the lock
acquisition and cleared right after it, before the call returns, so the flag
is true from the start of a `lockHighPriority` call until the underlying lock
is obtained, false during the high-priority critical region, and
`unlockHighPriority` (and `notify_all`) never writes the flag. -/
theorem C2_amended_flag_window :
    ∀ s, MutexAndAtomicBoolPriorityMutex.Reachable s →
      ((s.pcHigh = .muLock → s.waiting = true) ∧
       (s.pcHigh = .clearFlag → s.waiting = true) ∧
       (s.pcHigh = .work → s.waiting = false) ∧
       (s.pcHigh = .muUnlock → s.waiting = false) ∧
       (∀ s' ∈ MutexAndAtomicBoolPriorityMutex.next s,
         MutexAndAtomicBoolPriorityMutex.stepProp s s')) := by
  intro s hr
  have hinv := MutexAndAtomicBoolPriorityMutex.flagged_reachable_inv hr
  refine ⟨?_, ?_, ?_, ?_, fun s' hmem => MutexAndAtomicBoolPriorityMutex.flagged_step_props s s' hmem⟩
  · intro h; exact hinv.2.2.mpr (by rw [h]; decide)
  · intro h; exact hinv.2.2.mpr (by rw [h]; decide)
  · intro h
    have h2 := hinv.2.2
    rw [h] at h2
    simpa using h2
  · intro h
    have h2 := hinv.2.2
    rw [h] at h2
    simpa using h2

/-- C2 amended witness: in the reachable state where the high worker is
blocked inside `lockHighPriority` acquiring the lock, the flag is true. -/
theorem C2_amended_flag_window_witness :
    (⟨.muLock, .muLock, none, true⟩ : MutexAndAtomicBoolPriorityMutex.State).waiting = true := by
  have h1 : MutexAndAtomicBoolPriorityMutex.Step MutexAndAtomicBoolPriorityMutex.init
      ⟨.muLock, .setFlag, none, false⟩ := by decide
  have h2 : MutexAndAtomicBoolPriorityMutex.Step ⟨.muLock, .setFlag, none, false⟩
      ⟨.muLock, .muLock, none, true⟩ := by decide
  exact (C2_amended_flag_window _ (Relation.ReflTransGen.tail
    (Relation.ReflTransGen.tail Relation.ReflTransGen.refl h1) h2)).1 rfl

/-- C3: the Preferenced strategy's four methods have exactly the transcribed
effects: `lockHighPriority` sets the pending flag then enters the wait, whose
predicate is `!dataHeld_`, and sets `dataHeld_` on success;
`unlockHighPriority` clears `dataHeld_` and the pending flag and wakes all
waiters; `lockLowPriority` proceeds only when `dataHeld_` and the pending flag
are both false and then sets `dataHeld_`; `unlockLowPriority` clears
`dataHeld_`, leaves the pending flag unchanged, and wakes all waiters;
moreover the pending flag stays true for the whole high-priority wait. -/
theorem C3_preferenced_operations :
    ∀ s, MutexAndTwoBoolPriorityMutex.Reachable s →
      ((∀ s' ∈ MutexAndTwoBoolPriorityMutex.next s, MutexAndTwoBoolPriorityMutex.stepProp s s') ∧
       (s.pcHigh = .waitCheck ∨ s.pcHigh = .blockedCv → s.waiting = true)) := by
  intro s hr
  refine ⟨fun s' hmem => MutexAndTwoBoolPriorityMutex.preferenced_step_props s s' hmem, ?_⟩
  intro h
  have hinv := MutexAndTwoBoolPriorityMutex.preferenced_reachable_inv hr
  exact hinv.2.2.2.2.2.2.mpr (by rcases h with h | h <;> rw [h] <;> decide)

/-- C3 witness: in the reachable state where the high worker has set the
pending flag and reached its wait, the flag is indeed true. -/
theorem C3_preferenced_operations_witness :
    (⟨.muLock, .waitCheck, some Tid.high, false, true, false, false⟩ :
      MutexAndTwoBoolPriorityMutex.State).waiting = true := by
  have h1 : MutexAndTwoBoolPriorityMutex.Step MutexAndTwoBoolPriorityMutex.init
      ⟨.muLock, .muLock, none, false, false, false, false⟩ := by decide
  have h2 : MutexAndTwoBoolPriorityMutex.Step ⟨.muLock, .muLock, none, false, false, false, false⟩
      ⟨.muLock, .setWaiting, some Tid.high, false, false, false, false⟩ := by decide
  have h3 : MutexAndTwoBoolPriorityMutex.Step
      ⟨.muLock, .setWaiting, some Tid.high, false, false, false, false⟩
      ⟨.muLock, .waitCheck, some Tid.high, false, true, false, false⟩ := by decide
  exact (C3_preferenced_operations _ (Relation.ReflTransGen.tail (Relation.ReflTransGen.tail
    (Relation.ReflTransGen.tail Relation.ReflTransGen.refl h1) h2) h3)).2 (Or.inl rfl)

/-- C9: in every reachable Preferenced state, `dataHeld_` is true exactly when
one worker (never both) is inside its holding span, from its lock's
`dataHeld_ = true` store (which completes before the lock call returns) to the
matching unlock's `dataHeld_ = false` store; a worker about to perform the
`dataHeld_ = true` store saw `dataHeld_` false while owning `dataMutex_`;
`dataHeld_` is written only by those lock/unlock stores; and no worker owns
the OS mutex while in its critical region. -/
theorem C9_preferenced_held_invariant :
    ∀ s, MutexAndTwoBoolPriorityMutex.Reachable s →
      ((s.held = true ↔
        (MutexAndTwoBoolPriorityMutex.holdRegionLow s ∨
         MutexAndTwoBoolPriorityMutex.holdRegionHigh s)) ∧
       ¬(MutexAndTwoBoolPriorityMutex.holdRegionLow s ∧
         MutexAndTwoBoolPriorityMutex.holdRegionHigh s) ∧
       (s.pcLow = .setHeld → s.held = false ∧ s.owner = some Tid.low) ∧
       (s.pcHigh = .setHeld → s.held = false ∧ s.owner = some Tid.high) ∧
       (MutexAndTwoBoolPriorityMutex.holdsLow s → s.owner ≠ some Tid.low) ∧
       (MutexAndTwoBoolPriorityMutex.holdsHigh s → s.owner ≠ some Tid.high) ∧
       (∀ s' ∈ MutexAndTwoBoolPriorityMutex.next s,
         MutexAndTwoBoolPriorityMutex.stepPropHeld s s')) := by
  intro s hr
  have hinv := MutexAndTwoBoolPriorityMutex.preferenced_reachable_inv hr
  refine ⟨hinv.2.2.1, hinv.2.2.2.1, ?_, ?_, ?_, ?_,
    fun s' hmem => (MutexAndTwoBoolPriorityMutex.preferenced_step_props s s' hmem).2.2⟩
  · intro h
    exact ⟨hinv.2.2.2.2.1 h, hinv.1.mpr (by rw [h]; decide)⟩
  · intro h
    exact ⟨hinv.2.2.2.2.2.1 h, hinv.2.1.mpr (by rw [h]; decide)⟩
  · intro h hcon
    have hm := hinv.1.mp hcon
    rw [h] at hm
    exact absurd hm (by decide)
  · intro h hcon
    have hm := hinv.2.1.mp hcon
    rw [h] at hm
    exact absurd hm (by decide)

/-- C9 witness: in the reachable state where the low worker is in its critical
region, `dataHeld_` is true and the worker does not own the OS mutex. -/
theorem C9_preferenced_held_invariant_witness :
    (⟨.work, .sleep, none, true, false, false, false⟩ :
      MutexAndTwoBoolPriorityMutex.State).held = true ∧
    (⟨.work, .sleep, none, true, false, false, false⟩ :
      MutexAndTwoBoolPriorityMutex.State).owner ≠ some Tid.low := by
  have h1 : MutexAndTwoBoolPriorityMutex.Step MutexAndTwoBoolPriorityMutex.init
      ⟨.waitCheck, .sleep, some Tid.low, false, false, false, false⟩ := by decide
  have h2 : MutexAndTwoBoolPriorityMutex.Step
      ⟨.waitCheck, .sleep, some Tid.low, false, false, false, false⟩
      ⟨.setHeld, .sleep, some Tid.low, false, false, false, false⟩ := by decide
  have h3 : MutexAndTwoBoolPriorityMutex.Step
      ⟨.setHeld, .sleep, some Tid.low, false, false, false, false⟩
      ⟨.muUnlock, .sleep, some Tid.low, true, false, false, false⟩ := by decide
  have h4 : MutexAndTwoBoolPriorityMutex.Step
      ⟨.muUnlock, .sleep, some Tid.low, true, false, false, false⟩
      ⟨.work, .sleep, none, true, false, false, false⟩ := by decide
  have hr := Relation.ReflTransGen.tail (Relation.ReflTransGen.tail (Relation.ReflTransGen.tail
    (Relation.ReflTransGen.tail Relation.ReflTransGen.refl h1) h2) h3) h4
  have h := C9_preferenced_held_invariant _ hr
  exact ⟨h.1.mpr (Or.inl (by decide)), h.2.2.2.2.1 rfl⟩

/-- C5: the Gated strategy's lock paths are the identical operation sequence
(acquire gate, acquire data lock, release gate), both unlock paths release
only the data lock, and erasing the gate operations yields exactly the Plain
strategy's sequences; moreover forgetting the gate is a simulation into the
Plain model that preserves reachability and resource holding, so with respect
to which caller holds the resource the Gated strategy is the Plain strategy
plus a fixed extra lock layer, with no priority differentiation. -/
theorem C5_gated_equals_plain_plus_gate :
    (TwoMutexPriorityMutex.lockLowPriority = TwoMutexPriorityMutex.lockHighPriority ∧
     TwoMutexPriorityMutex.unlockLowPriority = TwoMutexPriorityMutex.unlockHighPriority ∧
     TwoMutexPriorityMutex.unlockLowPriority = [MOp.unlockData]) ∧
    (TwoMutexPriorityMutex.lockLowPriority.filter MOp.isData =
      BasicPriorityMutex.lockLowPriority ∧
     TwoMutexPriorityMutex.lockHighPriority.filter MOp.isData =
      BasicPriorityMutex.lockHighPriority ∧
     TwoMutexPriorityMutex.unlockLowPriority.filter MOp.isData =
      BasicPriorityMutex.unlockLowPriority ∧
     TwoMutexPriorityMutex.unlockHighPriority.filter MOp.isData =
      BasicPriorityMutex.unlockHighPriority) ∧
    TwoMutexPriorityMutex.proj TwoMutexPriorityMutex.init = BasicPriorityMutex.init ∧
    (∀ s s', TwoMutexPriorityMutex.Step s s' →
      TwoMutexPriorityMutex.proj s' = TwoMutexPriorityMutex.proj s ∨
      BasicPriorityMutex.Step (TwoMutexPriorityMutex.proj s) (TwoMutexPriorityMutex.proj s')) ∧
    (∀ s, TwoMutexPriorityMutex.Reachable s →
      BasicPriorityMutex.Reachable (TwoMutexPriorityMutex.proj s)) ∧
    (∀ s, TwoMutexPriorityMutex.holdsLow s →
      BasicPriorityMutex.holdsLow (TwoMutexPriorityMutex.proj s)) ∧
    (∀ s, TwoMutexPriorityMutex.holdsHigh s →
      BasicPriorityMutex.holdsHigh (TwoMutexPriorityMutex.proj s)) := by
  refine ⟨⟨rfl, rfl, rfl⟩, ⟨rfl, rfl, rfl, rfl⟩, rfl, TwoMutexPriorityMutex.sim,
    fun s hr => TwoMutexPriorityMutex.reachable_proj hr, ?_, ?_⟩
  · intro s h
    simp [TwoMutexPriorityMutex.proj, TwoMutexPriorityMutex.projPc, h]
  · intro s h
    simp [TwoMutexPriorityMutex.proj, TwoMutexPriorityMutex.projPc, h]

/-- C5 witness: the simulation clauses applied at the initial state and at the
concrete first step of the low worker (a gate acquisition, which projects to a
stutter). -/
theorem C5_gated_equals_plain_plus_gate_witness :
    BasicPriorityMutex.Reachable (TwoMutexPriorityMutex.proj TwoMutexPriorityMutex.init) ∧
    (TwoMutexPriorityMutex.proj ⟨.dataLock, .gateLock, some Tid.low, none⟩ =
      TwoMutexPriorityMutex.proj TwoMutexPriorityMutex.init ∨
     BasicPriorityMutex.Step (TwoMutexPriorityMutex.proj TwoMutexPriorityMutex.init)
       (TwoMutexPriorityMutex.proj ⟨.dataLock, .gateLock, some Tid.low, none⟩)) :=
  ⟨C5_gated_equals_plain_plus_gate.2.2.2.2.1 _ Relation.ReflTransGen.refl,
   C5_gated_equals_plain_plus_gate.2.2.2.1 _ _ (by decide)⟩
theorem winnerStep_low (acc : BestAcc) (r : String × Int × Int) :
    ((winnerStep acc r).bestLowName, (winnerStep acc r).bestLow) =
      lowSel (acc.bestLowName, acc.bestLow) (r.1, r.2.1) := by
  simp only [winnerStep, lowSel]
  split_ifs <;> rfl

theorem winnerStep_high (acc : BestAcc) (r : String × Int × Int) :
    ((winnerStep acc r).bestHighName, (winnerStep acc r).bestHigh) =
      highSel (acc.bestHighName, acc.bestHigh) (r.1, r.2.2) := by
  simp only [winnerStep, highSel]
  split_ifs <;> rfl

theorem foldl_winnerStep_low (l : List (String × Int × Int)) (acc : BestAcc) :
    (((l.foldl winnerStep acc).bestLowName, (l.foldl winnerStep acc).bestLow) :
      String × Int) =
      (l.map fun r => (r.1, r.2.1)).foldl lowSel (acc.bestLowName, acc.bestLow) := by
  induction l generalizing acc with
  | nil => rfl
  | cons a t ih =>
      rw [List.foldl_cons, List.map_cons, List.foldl_cons, ih, winnerStep_low]

theorem foldl_winnerStep_high (l : List (String × Int × Int)) (acc : BestAcc) :
    (((l.foldl winnerStep acc).bestHighName, (l.foldl winnerStep acc).bestHigh) :
      String × Int) =
      (l.map fun r => (r.1, r.2.2)).foldl highSel (acc.bestHighName, acc.bestHigh) := by
  induction l generalizing acc with
  | nil => rfl
  | cons a t ih =>
      rw [List.foldl_cons, List.map_cons, List.foldl_cons, ih, winnerStep_high]

theorem selectWinners_fst (l : List (String × Int × Int)) :
    (selectWinners l).1 = ((l.map fun r => (r.1, r.2.1)).foldl lowSel ("", 0)).1 := by
  have h := foldl_winnerStep_low l initialBest
  exact congrArg Prod.fst h

theorem selectWinners_snd (l : List (String × Int × Int)) :
    (selectWinners l).2 = ((l.map fun r => (r.1, r.2.2)).foldl highSel ("", doubleMax)).1 := by
  have h := foldl_winnerStep_high l initialBest
  exact congrArg Prod.fst h

theorem lowSel4_pick1 (n1 n2 n3 n4 : String) (a b c d : Int) (h0 : 0 < a)
    (hb : b ≤ a) (hc : c ≤ a) (hd : d ≤ a) :
    (([(n1, a), (n2, b), (n3, c), (n4, d)] : List (String × Int)).foldl lowSel ("", 0)).1 =
      n1 := by
  simp only [List.foldl_cons, List.foldl_nil, lowSel]
  split_ifs <;> first | rfl | omega


theorem lowSel4_pick2 (n1 n2 n3 n4 : String) (a b c d : Int) (h0 : 0 < b)
    (ha : a < b) (hc : c ≤ b) (hd : d ≤ b) :
    (([(n1, a), (n2, b), (n3, c), (n4, d)] : List (String × Int)).foldl lowSel ("", 0)).1 =
      n2 := by
  simp only [List.foldl_cons, List.foldl_nil, lowSel]
  split_ifs <;> first | rfl | omega


theorem lowSel4_pick3 (n1 n2 n3 n4 : String) (a b c d : Int) (h0 : 0 < c)
    (ha : a < c) (hb : b < c) (hd : d ≤ c) :
    (([(n1, a), (n2, b), (n3, c), (n4, d)] : List (String × Int)).foldl lowSel ("", 0)).1 =
      n3 := by
  simp only [List.foldl_cons, List.foldl_nil, lowSel]
  split_ifs <;> first | rfl | omega


theorem lowSel4_pick4 (n1 n2 n3 n4 : String) (a b c d : Int) (h0 : 0 < d)
    (ha : a < d) (hb : b < d) (hc : c < d) :
    (([(n1, a), (n2, b), (n3, c), (n4, d)] : List (String × Int)).foldl lowSel ("", 0)).1 =
      n4 := by
  simp only [List.foldl_cons, List.foldl_nil, lowSel]
  split_ifs <;> rfl


theorem lowSel4_none (n1 n2 n3 n4 : String) (a b c d : Int) (ha : a ≤ 0)
    (hb : b ≤ 0) (hc : c ≤ 0) (hd : d ≤ 0) :
    (([(n1, a), (n2, b), (n3, c), (n4, d)] : List (String × Int)).foldl lowSel ("", 0)).1 =
      "" := by
  simp only [List.foldl_cons, List.foldl_nil, lowSel]
  split_ifs <;> first | rfl | omega


theorem highSel4_pick1 (n1 n2 n3 n4 : String) (a b c d : Int) (h0 : a < doubleMax)
    (hb : a ≤ b) (hc : a ≤ c) (hd : a ≤ d) :
    (([(n1, a), (n2, b), (n3, c), (n4, d)] : List (String × Int)).foldl highSel
      ("", doubleMax)).1 = n1 := by
  simp only [List.foldl_cons, List.foldl_nil, highSel]
  split_ifs <;> first | rfl | omega


theorem highSel4_pick2 (n1 n2 n3 n4 : String) (a b c d : Int) (h0 : b < doubleMax)
    (ha : b < a) (hc : b ≤ c) (hd : b ≤ d) :
    (([(n1, a), (n2, b), (n3, c), (n4, d)] : List (String × Int)).foldl highSel
      ("", doubleMax)).1 = n2 := by
  simp only [List.foldl_cons, List.foldl_nil, highSel]
  split_ifs <;> first | rfl | omega


theorem highSel4_pick3 (n1 n2 n3 n4 : String) (a b c d : Int) (h0 : c < doubleMax)
    (ha : c < a) (hb : c < b) (hd : c ≤ d) :
    (([(n1, a), (n2, b), (n3, c), (n4, d)] : List (String × Int)).foldl highSel
      ("", doubleMax)).1 = n3 := by
  simp only [List.foldl_cons, List.foldl_nil, highSel]
  split_ifs <;> first | rfl | omega


theorem highSel4_pick4 (n1 n2 n3 n4 : String) (a b c d : Int) (h0 : d < doubleMax)
    (ha : d < a) (hb : d < b) (hc : d < c) :
    (([(n1, a), (n2, b), (n3, c), (n4, d)] : List (String × Int)).foldl highSel
      ("", doubleMax)).1 = n4 := by
  simp only [List.foldl_cons, List.foldl_nil, highSel]
  split_ifs <;> rfl


theorem highSel4_none (n1 n2 n3 n4 : String) (a b c d : Int) (ha : doubleMax ≤ a)
    (hb : doubleMax ≤ b) (hc : doubleMax ≤ c) (hd : doubleMax ≤ d) :
    (([(n1, a), (n2, b), (n3, c), (n4, d)] : List (String × Int)).foldl highSel
      ("", doubleMax)).1 = "" := by
  simp only [List.foldl_cons, List.foldl_nil, highSel]
  split_ifs <;> first | rfl | omega


theorem foldl_pair_bump_fst {γ : Type} (l : List γ) (g h : γ → String)
    (p : (String → Nat) × (String → Nat)) :
    (l.foldl (fun counts c => (bump counts.1 (g c), bump counts.2 (h c))) p).1 =
      l.foldl (fun f c => bump f (g c)) p.1 := by
  induction l generalizing p with
  | nil => rfl
  | cons a t ih => rw [List.foldl_cons, List.foldl_cons, ih]

theorem foldl_pair_bump_snd {γ : Type} (l : List γ) (g h : γ → String)
    (p : (String → Nat) × (String → Nat)) :
    (l.foldl (fun counts c => (bump counts.1 (g c), bump counts.2 (h c))) p).2 =
      l.foldl (fun f c => bump f (h c)) p.2 := by
  induction l generalizing p with
  | nil => rfl
  | cons a t ih => rw [List.foldl_cons, List.foldl_cons, ih]

theorem foldl_bump_count {γ : Type} (g : γ → String) (l : List γ) (f : String → Nat)
    (n : String) :
    (l.foldl (fun f c => bump f (g c)) f) n =
      f n + (l.filter fun c => decide (g c = n)).length := by
  induction l generalizing f with
  | nil => simp
  | cons a t ih =>
      rw [List.foldl_cons, ih, List.filter_cons]
      by_cases h : g a = n
      · subst h
        simp [bump]
        omega
      · have hne : n ≠ g a := fun hcon => h hcon.symm
        simp [bump, hne, h]

theorem sweepTally_count (res : (Int × Int × Int) → String → Int × Int) (n : String) :
    (sweepTally res).1 n =
      (sweepCombos.filter fun c =>
        decide ((selectWinners (runResults res c)).1 = n)).length ∧
    (sweepTally res).2 n =
      (sweepCombos.filter fun c =>
        decide ((selectWinners (runResults res c)).2 = n)).length := by
  constructor
  · rw [sweepTally, foldl_pair_bump_fst, foldl_bump_count]
    simp
  · rw [sweepTally, foldl_pair_bump_snd, foldl_bump_count]
    simp

theorem selectWinners_low_first (res : String → Int × Int) (s : String)
    (hs : s ∈ strategyNames) (hpos : 0 < (res s).1)
    (hmax : ∀ t ∈ strategyNames, (res t).1 ≤ (res s).1)
    (hfirst : ∀ t ∈ strategyNames, strategyNames.indexOf t < strategyNames.indexOf s →
      (res t).1 < (res s).1) :
    (selectWinners (resultsOf res)).1 = s := by
  rw [selectWinners_fst]
  have e : ((resultsOf res).map fun r => (r.1, r.2.1)) =
      [("BasicPriorityMutex", (res "BasicPriorityMutex").1),
       ("TwoMutexPriorityMutex", (res "TwoMutexPriorityMutex").1),
       ("MutexAndAtomicBoolPriorityMutex", (res "MutexAndAtomicBoolPriorityMutex").1),
       ("MutexAndTwoBoolPriorityMutex", (res "MutexAndTwoBoolPriorityMutex").1)] := rfl
  rw [e]
  have hb := hmax "BasicPriorityMutex" (by decide)
  have ht := hmax "TwoMutexPriorityMutex" (by decide)
  have hf := hmax "MutexAndAtomicBoolPriorityMutex" (by decide)
  have hp := hmax "MutexAndTwoBoolPriorityMutex" (by decide)
  simp only [strategyNames, priorityMutexes, List.map_cons, List.map_nil, List.mem_cons,
    List.not_mem_nil, or_false] at hs
  rcases hs with rfl | rfl | rfl | rfl
  · exact lowSel4_pick1 _ _ _ _ _ _ _ _ hpos ht hf hp
  · exact lowSel4_pick2 _ _ _ _ _ _ _ _ hpos
      (hfirst "BasicPriorityMutex" (by decide) (by decide)) hf hp
  · exact lowSel4_pick3 _ _ _ _ _ _ _ _ hpos
      (hfirst "BasicPriorityMutex" (by decide) (by decide))
      (hfirst "TwoMutexPriorityMutex" (by decide) (by decide)) hp
  · exact lowSel4_pick4 _ _ _ _ _ _ _ _ hpos
      (hfirst "BasicPriorityMutex" (by decide) (by decide))
      (hfirst "TwoMutexPriorityMutex" (by decide) (by decide))
      (hfirst "MutexAndAtomicBoolPriorityMutex" (by decide) (by decide))

theorem selectWinners_high_first (res : String → Int × Int) (s : String)
    (hs : s ∈ strategyNames) (hlt : (res s).2 < doubleMax)
    (hmin : ∀ t ∈ strategyNames, (res s).2 ≤ (res t).2)
    (hfirst : ∀ t ∈ strategyNames, strategyNames.indexOf t < strategyNames.indexOf s →
      (res s).2 < (res t).2) :
    (selectWinners (resultsOf res)).2 = s := by
  rw [selectWinners_snd]
  have e : ((resultsOf res).map fun r => (r.1, r.2.2)) =
      [("BasicPriorityMutex", (res "BasicPriorityMutex").2),
       ("TwoMutexPriorityMutex", (res "TwoMutexPriorityMutex").2),
       ("MutexAndAtomicBoolPriorityMutex", (res "MutexAndAtomicBoolPriorityMutex").2),
       ("MutexAndTwoBoolPriorityMutex", (res "MutexAndTwoBoolPriorityMutex").2)] := rfl
  rw [e]
  have hb := hmin "BasicPriorityMutex" (by decide)
  have ht := hmin "TwoMutexPriorityMutex" (by decide)
  have hf := hmin "MutexAndAtomicBoolPriorityMutex" (by decide)
  have hp := hmin "MutexAndTwoBoolPriorityMutex" (by decide)
  simp only [strategyNames, priorityMutexes, List.map_cons, List.map_nil, List.mem_cons,
    List.not_mem_nil, or_false] at hs
  rcases hs with rfl | rfl | rfl | rfl
  · exact highSel4_pick1 _ _ _ _ _ _ _ _ hlt ht hf hp
  · exact highSel4_pick2 _ _ _ _ _ _ _ _ hlt
      (hfirst "BasicPriorityMutex" (by decide) (by decide)) hf hp
  · exact highSel4_pick3 _ _ _ _ _ _ _ _ hlt
      (hfirst "BasicPriorityMutex" (by decide) (by decide))
      (hfirst "TwoMutexPriorityMutex" (by decide) (by decide)) hp
  · exact highSel4_pick4 _ _ _ _ _ _ _ _ hlt
      (hfirst "BasicPriorityMutex" (by decide) (by decide))
      (hfirst "TwoMutexPriorityMutex" (by decide) (by decide))
      (hfirst "MutexAndAtomicBoolPriorityMutex" (by decide) (by decide))

theorem selectWinners_low_none (res : String → Int × Int)
    (h : ∀ t ∈ strategyNames, (res t).1 ≤ 0) :
    (selectWinners (resultsOf res)).1 = "" := by
  rw [selectWinners_fst]
  exact lowSel4_none _ _ _ _ _ _ _ _
    (h "BasicPriorityMutex" (by decide)) (h "TwoMutexPriorityMutex" (by decide))
    (h "MutexAndAtomicBoolPriorityMutex" (by decide))
    (h "MutexAndTwoBoolPriorityMutex" (by decide))

theorem selectWinners_high_none (res : String → Int × Int)
    (h : ∀ t ∈ strategyNames, doubleMax ≤ (res t).2) :
    (selectWinners (resultsOf res)).2 = "" := by
  rw [selectWinners_snd]
  exact highSel4_none _ _ _ _ _ _ _ _
    (h "BasicPriorityMutex" (by decide)) (h "TwoMutexPriorityMutex" (by decide))
    (h "MutexAndAtomicBoolPriorityMutex" (by decide))
    (h "MutexAndTwoBoolPriorityMutex" (by decide))

/-- C6 counterexample: constructing the harness with all three durations equal
to zero succeeds: the constructor (src/main.cpp 146-153) just stores the
values and returns normally, so a non-positive configuration is not
rejected. -/
theorem C6_nonpositive_durations_accepted :
    ContentionTest.construct 0 0 0 0 = Except.ok ⟨0, 0, 0, 0⟩ := rfl

set_option maxRecDepth 100000 in
/-- C6 amended: the `ContentionTest` constructor performs no validation at
all: every construction, with any (also non-positive) durations, succeeds and
stores the arguments unchanged; separately, the reference sweep only ever
supplies positive durations (at least 1 microsecond), so no harness run of the
program itself uses a degenerate configuration. -/
theorem C6_amended_constructor_never_rejects :
    (∀ (pm : Nat) (lowW highW highS : Int),
      ContentionTest.construct pm lowW highW highS = Except.ok ⟨pm, lowW, highW, highS⟩) ∧
    (∀ r ∈ sweepRuns, 0 < r.1.1 ∧ 0 < r.1.2.1 ∧ 0 < r.1.2.2) := by
  refine ⟨fun pm lowW highW highS => rfl, ?_⟩
  intro r hr
  simp only [sweepRuns, List.mem_flatMap, List.mem_map] at hr
  obtain ⟨c, hc, pm, hpm, rfl⟩ := hr
  simp only [sweepCombos, List.mem_flatMap, List.mem_map] at hc
  obtain ⟨lw, hlw, hw, hhw, hs, hhs, rfl⟩ := hc
  have hpos : ∀ d ∈ microsecondsList, (0 : Int) < d := by decide
  exact ⟨hpos lw hlw, hpos hw hhw, hpos hs hhs⟩

/-- C6 amended witness: the constructor clause applied at a degenerate input
and the positivity clause applied at the first sweep run. -/
theorem C6_amended_constructor_never_rejects_witness :
    ContentionTest.construct 3 (-5) 0 1 = Except.ok ⟨3, -5, 0, 1⟩ ∧
    (0 < (((1 : Int), (1 : Int), (1 : Int)), ((0 : Nat), "BasicPriorityMutex")).1.1 ∧
     0 < (((1 : Int), (1 : Int), (1 : Int)), ((0 : Nat), "BasicPriorityMutex")).1.2.1 ∧
     0 < (((1 : Int), (1 : Int), (1 : Int)), ((0 : Nat), "BasicPriorityMutex")).1.2.2) :=
  ⟨C6_amended_constructor_never_rejects.1 3 (-5) 0 1,
   C6_amended_constructor_never_rejects.2 (((1, 1, 1)), (0, "BasicPriorityMutex"))
     (by decide)⟩

set_option maxRecDepth 100000 in
/-- C7 counterexample: runs 0 and 4 of the sweep belong to different sweep
iterations (workload combinations `(1,1,1)` and `(1,1,10)`) yet are handed the
same pre-allocated strategy instance, allocation id 0 from src/main.cpp
212-217: instances are not destroyed or reset between sweep iterations, so a
later run does not start from a freshly-constructed instance. -/
theorem C7_instance_shared_across_iterations :
    sweepRuns[0]? = some ((1, 1, 1), 0, "BasicPriorityMutex") ∧
    sweepRuns[4]? = some ((1, 1, 10), 0, "BasicPriorityMutex") := by
  constructor <;> decide

set_option maxRecDepth 100000 in
/-- C7 amended: the four strategy instances are allocated exactly once,
before the sweep loops, and every run uses one of those four; each instance is
reused, without destruction or reset, by exactly one run per parameter
combination - 343 runs spanning all sweep iterations. -/
theorem C7_amended_instances_allocated_once :
    sweepRuns.length = 1372 ∧
    (∀ r ∈ sweepRuns, r.2 ∈ priorityMutexes) ∧
    (∀ pm ∈ priorityMutexes,
      (sweepRuns.filter fun r => decide (r.2.1 = pm.1)).map Prod.fst = sweepCombos) := by
  refine ⟨by decide, ?_, ?_⟩
  · intro r hr
    simp only [sweepRuns, List.mem_flatMap, List.mem_map] at hr
    obtain ⟨c, _, pm, hpm, rfl⟩ := hr
    exact hpm
  · decide

/-- C7 amended witness: the reuse clauses applied at the first run and at the
first pre-allocated instance. -/
theorem C7_amended_instances_allocated_once_witness :
    (((1 : Int), (1 : Int), (1 : Int)), ((0 : Nat), "BasicPriorityMutex")).2 ∈
      priorityMutexes ∧
    (sweepRuns.filter fun r => decide (r.2.1 = (0, "BasicPriorityMutex").1)).map Prod.fst =
      sweepCombos :=
  ⟨C7_amended_instances_allocated_once.2.1 ((1, 1, 1), (0, "BasicPriorityMutex")) (by decide),
   C7_amended_instances_allocated_once.2.2 (0, "BasicPriorityMutex") (by decide)⟩

set_option maxRecDepth 100000 in
/-- C8: the sweep iterates exactly seven log-spaced durations (each ten times
the previous, from 1 microsecond to 1 second) independently over the three
workload axes, giving 343 combinations; per combination it performs one
harness run per strategy in the fixed order; it awards the combination's
low-axis win to the strategy with the (unique, positive) maximum low-priority
work time and the high-axis win to the strategy with the (unique) minimum
high-priority latency; and the per-strategy win counts reported after the
sweep equal, for each name, the number of combinations that name won. -/
theorem C8_sweep_driver :
    microsecondsList.length = 7 ∧
    microsecondsList.head? = some 1 ∧
    microsecondsList.getLast? = some 1000000 ∧
    ((microsecondsList.zip microsecondsList.tail).all fun p =>
      decide (p.2 = 10 * p.1)) = true ∧
    (∀ c : Int × Int × Int, c ∈ sweepCombos ↔
      (c.1 ∈ microsecondsList ∧ c.2.1 ∈ microsecondsList ∧ c.2.2 ∈ microsecondsList)) ∧
    sweepCombos.length = 343 ∧
    (∀ (res : (Int × Int × Int) → String → Int × Int) (c : Int × Int × Int),
      (runResults res c).map Prod.fst = strategyNames) ∧
    (∀ (res : (Int × Int × Int) → String → Int × Int) (c : Int × Int × Int) (s : String),
      s ∈ strategyNames → 0 < (res c s).1 →
      (∀ t ∈ strategyNames, t ≠ s → (res c t).1 < (res c s).1) →
      (selectWinners (runResults res c)).1 = s) ∧
    (∀ (res : (Int × Int × Int) → String → Int × Int) (c : Int × Int × Int) (s : String),
      s ∈ strategyNames → (res c s).2 < doubleMax →
      (∀ t ∈ strategyNames, t ≠ s → (res c s).2 < (res c t).2) →
      (selectWinners (runResults res c)).2 = s) ∧
    (∀ (res : (Int × Int × Int) → String → Int × Int) (n : String),
      (sweepTally res).1 n =
        (sweepCombos.filter fun c =>
          decide ((selectWinners (runResults res c)).1 = n)).length ∧
      (sweepTally res).2 n =
        (sweepCombos.filter fun c =>
          decide ((selectWinners (runResults res c)).2 = n)).length) := by
  refine ⟨by decide, by decide, by decide, by decide, ?_, by decide, fun res c => rfl,
    ?_, ?_, fun res n => sweepTally_count res n⟩
  · intro c
    constructor
    · intro h
      simp only [sweepCombos, List.mem_flatMap, List.mem_map] at h
      obtain ⟨lw, hlw, hw, hhw, hs, hhs, rfl⟩ := h
      exact ⟨hlw, hhw, hhs⟩
    · rintro ⟨h1, h2, h3⟩
      simp only [sweepCombos, List.mem_flatMap, List.mem_map]
      exact ⟨c.1, h1, c.2.1, h2, c.2.2, h3, rfl⟩
  · intro res c s hs hpos hmax
    refine selectWinners_low_first (res c) s hs hpos ?_ ?_
    · intro t ht
      by_cases hne : t = s
      · subst hne; exact le_refl _
      · exact le_of_lt (hmax t ht hne)
    · intro t ht hidx
      have hne : t ≠ s := by
        intro hcon
        subst hcon
        exact absurd hidx (lt_irrefl _)
      exact hmax t ht hne
  · intro res c s hs hlt hmin
    refine selectWinners_high_first (res c) s hs hlt ?_ ?_
    · intro t ht
      by_cases hne : t = s
      · subst hne; exact le_refl _
      · exact le_of_lt (hmin t ht hne)
    · intro t ht hidx
      have hne : t ≠ s := by
        intro hcon
        subst hcon
        exact absurd hidx (lt_irrefl _)
      exact hmin t ht hne

set_option maxRecDepth 100000 in
/-- C8 witness: the two winner-selection clauses applied at the combination
`(1,1,1)` with the concrete results `(name.length, name.length)`: the longest
name wins the low axis, the shortest wins the high axis. -/
theorem C8_sweep_driver_witness :
    (selectWinners (runResults (fun _ n => ((n.length : Int), (n.length : Int))) (1, 1, 1))).1 =
      "MutexAndAtomicBoolPriorityMutex" ∧
    (selectWinners (runResults (fun _ n => ((n.length : Int), (n.length : Int))) (1, 1, 1))).2 =
      "BasicPriorityMutex" :=
  ⟨C8_sweep_driver.2.2.2.2.2.2.2.1 (fun _ n => ((n.length : Int), (n.length : Int)))
    (1, 1, 1) "MutexAndAtomicBoolPriorityMutex" (by decide) (by decide) (by decide),
   C8_sweep_driver.2.2.2.2.2.2.2.2.1 (fun _ n => ((n.length : Int), (n.length : Int)))
    (1, 1, 1) "BasicPriorityMutex" (by decide) (by decide) (by decide)⟩

/-- C10: winner selection is by strict comparison against the initial bounds
0.0 (low axis) and `numeric_limits<double>::max()` (high axis), so if all four
strategies report non-positive low-priority work time the low-axis win is
recorded under the empty strategy name (and tallied under it); and on exact
ties on either axis the win goes to the strategy earliest in the fixed
iteration order (the first strategy attaining the extremum wins). -/
theorem C10_winner_selection_edge_cases :
    (∀ res : String → Int × Int,
      (∀ t ∈ strategyNames, (res t).1 ≤ 0) → (selectWinners (resultsOf res)).1 = "") ∧
    (∀ res : String → Int × Int,
      (∀ t ∈ strategyNames, doubleMax ≤ (res t).2) → (selectWinners (resultsOf res)).2 = "") ∧
    (∀ (res : String → Int × Int) (s : String), s ∈ strategyNames → 0 < (res s).1 →
      (∀ t ∈ strategyNames, (res t).1 ≤ (res s).1) →
      (∀ t ∈ strategyNames, strategyNames.indexOf t < strategyNames.indexOf s →
        (res t).1 < (res s).1) →
      (selectWinners (resultsOf res)).1 = s) ∧
    (∀ (res : String → Int × Int) (s : String), s ∈ strategyNames → (res s).2 < doubleMax →
      (∀ t ∈ strategyNames, (res s).2 ≤ (res t).2) →
      (∀ t ∈ strategyNames, strategyNames.indexOf t < strategyNames.indexOf s →
        (res s).2 < (res t).2) →
      (selectWinners (resultsOf res)).2 = s) ∧
    (∀ (counts : String → Nat) (res : String → Int × Int),
      (∀ t ∈ strategyNames, (res t).1 ≤ 0) →
      bump counts (selectWinners (resultsOf res)).1 "" = counts "" + 1) := by
  refine ⟨selectWinners_low_none, selectWinners_high_none, selectWinners_low_first,
    selectWinners_high_first, ?_⟩
  intro counts res h
  rw [selectWinners_low_none res h, bump, if_pos rfl]

set_option maxRecDepth 100000 in
/-- C10 witness: with all-zero results the low winner is the empty name and
the tally increments the empty name's count; with all results equal the first
strategy in iteration order wins both axes. -/
theorem C10_winner_selection_edge_cases_witness :
    (selectWinners (resultsOf fun _ => ((0 : Int), (0 : Int)))).1 = "" ∧
    (selectWinners (resultsOf fun _ => ((5 : Int), (5 : Int)))).1 = "BasicPriorityMutex" ∧
    (selectWinners (resultsOf fun _ => ((5 : Int), (5 : Int)))).2 = "BasicPriorityMutex" ∧
    bump (fun _ => 0) (selectWinners (resultsOf fun _ => ((0 : Int), (0 : Int)))).1 "" = 1 :=
  ⟨C10_winner_selection_edge_cases.1 (fun _ => ((0 : Int), (0 : Int))) (by decide),
   C10_winner_selection_edge_cases.2.2.1 (fun _ => ((5 : Int), (5 : Int)))
     "BasicPriorityMutex" (by decide) (by decide) (by decide) (by decide),
   C10_winner_selection_edge_cases.2.2.2.1 (fun _ => ((5 : Int), (5 : Int)))
     "BasicPriorityMutex" (by decide) (by decide) (by decide) (by decide),
   C10_winner_selection_edge_cases.2.2.2.2 (fun _ => 0) (fun _ => ((0 : Int), (0 : Int)))
     (by decide)⟩

theorem doubleMax_eq : doubleMax = 2 ^ 1024 - 2 ^ 971 := by
  norm_num [doubleMax]
